import Mathlib

/-!
Shallow embedding of the contactbook-context-aggregator backend.

Sources embedded:
- src/backend/app/services/google_contacts.py
  (GoogleContactsService.fetch_contacts, _transform_contacts,
   cache_contacts, get_cached_contacts)
- src/backend/pinecone_storage.py and src/backend/src/storage/pinecone_storage.py
  (PineconeStorage.insert_vectors, query_vectors; both variants build the
   same result dictionaries, so one embedding covers both)
- src/backend/api_server.py (similarity_search post-processing of scores)
- src/backend/src/vectorization/vectorization.py (Vectorizer constructor)

Python dictionaries coming from the Google People API are modelled as
structures whose optional fields are Option String; dict.get with a default
becomes Option.getD. Python truthiness of strings and lists is modelled
explicitly (empty string and empty list are falsy). Exceptions are modelled
with Except String. Floats never enter any arithmetic in the embedded code,
so vector components and scores are represented by rationals.
-/

namespace ContactAgg

/-- One element of the `names` list of a raw Google People API entry;
`displayName` may be absent. -/
structure NameEntry where
  displayName : Option String
deriving DecidableEq, Repr

/-- One element of `emailAddresses`, `phoneNumbers` or `biographies`;
the payload key is `value`. -/
structure ValueEntry where
  value : Option String
deriving DecidableEq, Repr

/-- One element of the `photos` list; the payload key is `url`. -/
structure PhotoEntry where
  url : Option String
deriving DecidableEq, Repr

/-- One element of the `organizations` list, with `name` and `title`. -/
structure OrgEntry where
  name : Option String
  title : Option String
deriving DecidableEq, Repr

/-- One element of the `addresses` list; the payload key is `formattedValue`. -/
structure AddrEntry where
  formattedValue : Option String
deriving DecidableEq, Repr

/-- One raw contact entry of the Google People API `connections` payload,
as read by `_transform_contacts` in google_contacts.py. `resourceName` is
absent (`none`) or present with a string value (possibly empty). -/
structure RawContact where
  resourceName : Option String
  names : List NameEntry
  emailAddresses : List ValueEntry
  phoneNumbers : List ValueEntry
  photos : List PhotoEntry
  organizations : List OrgEntry
  addresses : List AddrEntry
  biographies : List ValueEntry
deriving DecidableEq, Repr

/-- ContactResponse of app/models/contact.py: id plus the ContactBase
fields, all plain strings (pydantic enforces no non-emptiness). -/
structure ContactResponse where
  id : String
  name : String
  email : String
  phone : String
  avatar : String
  company : String
  job : String
  address : String
  notes : String
deriving DecidableEq, Repr

/-- google_contacts.py line 102:
name = names[0].get("displayName", "Unknown Contact") if names else "Unknown Contact". -/
def resolveName (c : RawContact) : String :=
  match c.names with
  | [] => "Unknown Contact"
  | n :: _ => n.displayName.getD "Unknown Contact"

/-- google_contacts.py line 106:
email = emails[0].get("value", "") if emails else "". -/
def resolveEmail (c : RawContact) : String :=
  match c.emailAddresses with
  | [] => ""
  | e :: _ => e.value.getD ""

/-- google_contacts.py line 110:
phone = phones[0].get("value", "") if phones else "". -/
def resolvePhone (c : RawContact) : String :=
  match c.phoneNumbers with
  | [] => ""
  | p :: _ => p.value.getD ""

/-- google_contacts.py line 114:
avatar = photos[0].get("url", "") if photos else "". -/
def resolvePhotoUrl (c : RawContact) : String :=
  match c.photos with
  | [] => ""
  | p :: _ => p.url.getD ""

/-- google_contacts.py line 117: the generated UI Avatars reference,
a deterministic function of the resolved name. -/
def genAvatar (name : String) : String :=
  "https://ui-avatars.com/api/?name=" ++ name.replace " " "+" ++
    "&background=6366f1&color=fff&size=128"

/-- google_contacts.py lines 113-117: first photo URL if truthy, else the
generated avatar keyed by the resolved name. -/
def resolveAvatar (c : RawContact) : String :=
  let a := resolvePhotoUrl c
  if a = "" then genAvatar (resolveName c) else a

/-- google_contacts.py lines 120-122: company of the first organization. -/
def resolveCompany (c : RawContact) : String :=
  match c.organizations with
  | [] => ""
  | o :: _ => o.name.getD ""

/-- google_contacts.py lines 120-123: title of the first organization. -/
def resolveJob (c : RawContact) : String :=
  match c.organizations with
  | [] => ""
  | o :: _ => o.title.getD ""

/-- google_contacts.py line 127: formattedValue of the first address. -/
def resolveAddress (c : RawContact) : String :=
  match c.addresses with
  | [] => ""
  | a :: _ => a.formattedValue.getD ""

/-- google_contacts.py line 131: value of the first biography. -/
def resolveNotes (c : RawContact) : String :=
  match c.biographies with
  | [] => ""
  | b :: _ => b.value.getD ""

/-- google_contacts.py lines 134-144: the ContactResponse built for one raw
entry. `k` is len(contacts) at construction time, the number of records
already appended; the id defaults to "contact-{k}" only when resourceName
is ABSENT (dict.get falls back on a missing key, not on an empty value). -/
def mkContact (c : RawContact) (k : Nat) : ContactResponse :=
  ⟨c.resourceName.getD ("contact-" ++ toString k),
   resolveName c, resolveEmail c, resolvePhone c, resolveAvatar c,
   resolveCompany c, resolveJob c, resolveAddress c, resolveNotes c⟩

/-- google_contacts.py line 147: the meaningful-data filter
name != "Unknown Contact" or email or phone (Python truthiness of strings). -/
def keeps (c : RawContact) : Bool :=
  !(resolveName c == "Unknown Contact") || !(resolveEmail c == "") ||
    !(resolvePhone c == "")

/-- The accumulator loop of _transform_contacts (google_contacts.py lines
96-154): `acc` is the contacts list built so far; the id fallback uses its
current length; an entry is appended only when `keeps` holds. -/
def transformGo : List RawContact → List ContactResponse → List ContactResponse
  | [], acc => acc
  | c :: rest, acc =>
    let obj := mkContact c acc.length
    if keeps c then transformGo rest (acc ++ [obj]) else transformGo rest acc

/-- _transform_contacts (google_contacts.py lines 92-154). -/
def _transform_contacts (gcs : List RawContact) : List ContactResponse :=
  transformGo gcs []

/-- Reference rendition of the normalizer following the words of the spec
(section 4.3 and section 3): resolve each entry, discard it unless the
meaningful-data condition holds, and number the id fallback by the count
of records kept so far. Used only to state the filter characterization. -/
def transformContactsSpec (k : Nat) : List RawContact → List ContactResponse
  | [] => []
  | c :: rest =>
    if keeps c then mkContact c k :: transformContactsSpec (k + 1) rest
    else transformContactsSpec k rest

/-- A cache entry as serialized by cache_contacts (google_contacts.py lines
156-184): the contacts list and the count (cached_at carries no behavior
read back by the code, so it is omitted). -/
structure CacheEntry where
  contacts : List ContactResponse
  count : Nat
deriving DecidableEq, Repr

/-- cache_contacts builds the entry stored under contacts:{user_id}. -/
def cache_contacts (contacts : List ContactResponse) : CacheEntry :=
  ⟨contacts, contacts.length⟩

/-- get_cached_contacts (google_contacts.py lines 186-212): returns the
stored contacts list, and the empty list when the key is missing, the entry
expired, or the backing store is unavailable (all modelled as `none`). -/
def get_cached_contacts : Option CacheEntry → List ContactResponse
  | some e => e.contacts
  | none => []

/-- The environment one call to fetch_contacts runs in: the cache state
observed by the first read, the outcome of the Google API call (error, or
status code with the `connections` payload), and the cache state observed
by the fallback read inside the except handler (the two reads may differ;
the spec notes this covers entries appearing between the reads). -/
structure FetchEnv where
  store1 : Option CacheEntry
  upstream : Except String (Nat × List RawContact)
  store2 : Option CacheEntry
deriving Repr

/-- What one call to fetch_contacts did: the returned value or raised
error, whether the Google API was invoked, and the cache entry written
by cache_contacts (none when nothing was written). -/
structure FetchOutcome where
  result : Except String (List ContactResponse)
  upstreamCalled : Bool
  cacheWrite : Option CacheEntry
deriving Repr

/-- Python truthiness of the user_id argument (str = None): None and the
empty string are falsy. -/
def useridTruthy : Option String → Bool
  | none => false
  | some s => !(s == "")

/-- The except handler of fetch_contacts (google_contacts.py lines 80-90):
re-read the cache when a truthy user_id is given; return it when non-empty;
otherwise raise "Failed to fetch contacts: {e}". -/
def fetchFallback (user_id : Option String) (env : FetchEnv) (msg : String) :
    FetchOutcome :=
  if useridTruthy user_id then
    let cached := get_cached_contacts env.store2
    if cached.isEmpty then
      ⟨.error ("Failed to fetch contacts: " ++ msg), true, none⟩
    else ⟨.ok cached, true, none⟩
  else ⟨.error ("Failed to fetch contacts: " ++ msg), true, none⟩

/-- The Google API section of fetch_contacts (google_contacts.py lines
47-78): network failure or a raised status error lands in the except
handler; on status 200 the payload is normalized, cached when a truthy
user_id is given, and returned. -/
def callUpstream (user_id : Option String) (env : FetchEnv) : FetchOutcome :=
  match env.upstream with
  | .error e => fetchFallback user_id env e
  | .ok (status, connections) =>
    if status = 401 then
      fetchFallback user_id env "Access token expired or invalid"
    else if status ≠ 200 then
      fetchFallback user_id env ("Google API error: " ++ toString status)
    else
      let contacts := _transform_contacts connections
      ⟨.ok contacts, true,
        if useridTruthy user_id then some (cache_contacts contacts) else none⟩

/-- fetch_contacts (google_contacts.py lines 35-90): serve the cached list
when a truthy user_id is given and the cached list is non-empty (Python
truthiness: an empty cached list does NOT count as a hit); otherwise call
the Google API. -/
def fetch_contacts (user_id : Option String) (env : FetchEnv) : FetchOutcome :=
  if useridTruthy user_id then
    let cached := get_cached_contacts env.store1
    if cached.isEmpty then callUpstream user_id env
    else ⟨.ok cached, false, none⟩
  else callUpstream user_id env

/-- Whether the modelled upstream outcome is a failure for fetch_contacts:
a transport or JSON error, or any status other than 200 (google_contacts.py
lines 62-65 raise on 401 and on every other non-200 status). -/
def upstreamFails : Except String (Nat × List RawContact) → Bool
  | .error _ => true
  | .ok (status, _) => status ≠ 200

/-- Values stored in the result dictionaries built by PineconeStorage. -/
inductive PineVal where
  | str (s : String)
  | num (q : ℚ)
  | vec (v : List ℚ)
  | obj (m : List (String × String))
deriving DecidableEq, Repr

/-- A Python dict with string keys, as an association list. -/
abbrev PineDict := List (String × PineVal)

/-- dict key membership. -/
def hasKey (d : PineDict) (k : String) : Bool :=
  d.any (fun p => p.1 == k)

/-- dict lookup of the first binding of a key. -/
def getVal (d : PineDict) (k : String) : Option PineVal :=
  (d.find? (fun p => p.1 == k)).map (fun p => p.2)

/-- One match of a Pinecone query response: id, values, optional metadata,
and the similarity score the backing store may attach. -/
structure PineconeMatch where
  id : String
  values : List ℚ
  metadata : Option (List (String × String))
  score : Option ℚ
deriving DecidableEq, Repr

/-- The result dictionary query_vectors builds for one match
(pinecone_storage.py, both variants):
\x7b"id": match["id"], "values": match["values"],
"metadata": match.get("metadata", \x7b\x7d)\x7d. No score key is emitted. -/
def matchToDict (m : PineconeMatch) : PineDict :=
  [("id", .str m.id), ("values", .vec m.values),
   ("metadata", .obj (m.metadata.getD []))]

/-- query_vectors (pinecone_storage.py lines 33-45 and 32-51): maps the
response matches through matchToDict. -/
def query_vectors (ms : List PineconeMatch) : List PineDict :=
  ms.map matchToDict

/-- SimilarityResult of api_server.py lines 45-48. -/
structure SimilarityResult where
  id : String
  score : ℚ
  metadata : List (String × String)
deriving DecidableEq, Repr

/-- api_server.py lines 64-67: add a dummy score of 0.0 when absent. -/
def addDefaultScore (r : PineDict) : PineDict :=
  if hasKey r "score" then r else r ++ [("score", .num 0)]

/-- api_server.py line 68: build SimilarityResult from a result dict,
defaulting score to 0.0 and metadata to the empty mapping. -/
def toSimilarityResult (r : PineDict) : SimilarityResult :=
  ⟨match getVal r "id" with | some (.str s) => s | _ => "",
   match getVal r "score" with | some (.num q) => q | _ => 0,
   match getVal r "metadata" with | some (.obj m) => m | _ => []⟩

/-- The result list of the /similarity-search endpoint (api_server.py
lines 63-68) as a function of the backing store matches. -/
def similarity_search_results (ms : List PineconeMatch) :
    List SimilarityResult :=
  (query_vectors ms).map (fun r => toSimilarityResult (addDefaultScore r))

/-- insert_vectors (pinecone_storage.py lines 21-31 and 20-30): the items
passed to index.upsert are zip(ids, vectors, metadata), which truncates to
the shortest of the three lists; no length check is performed. -/
def insert_vectors (vectors : List (List ℚ)) (ids : List String)
    (metadata : List (List (String × String))) :
    List (String × List ℚ × List (String × String)) :=
  (ids.zip (vectors.zip metadata)).map (fun x => (x.1, x.2.1, x.2.2))

/-- The errors the Vectorizer constructor can raise
(vectorization.py lines 27-33). -/
inductive VecInitError where
  | importErr (msg : String)
  | envErr (msg : String)
deriving DecidableEq, Repr

/-- The state a successfully constructed Vectorizer holds. -/
structure VectorizerState where
  model_name : String
  api_key : String
deriving DecidableEq, Repr

/-- Vectorizer.__init__ (vectorization.py lines 27-33): raise ImportError
when the openai package is missing; read OPENAI_API_KEY from the
environment (None when unset); raise EnvironmentError when the key is
falsy (unset or empty). No embedding call happens here. -/
def vectorizerInit (openaiInstalled : Bool) (envKey : Option String)
    (modelName : String) : Except VecInitError VectorizerState :=
  if openaiInstalled = false then
    .error (.importErr
      "openai package not installed. Please install openai to use the Vectorizer.")
  else
    match envKey with
    | none => .error (.envErr "OPENAI_API_KEY not set in environment.")
    | some k =>
      if k = "" then .error (.envErr "OPENAI_API_KEY not set in environment.")
      else .ok ⟨modelName, k⟩

/-- A concrete contact used by witnesses. -/
def sampleContact : ContactResponse :=
  ⟨"people/c1", "Ada Lovelace", "ada@x.com", "", "", "", "", "", ""⟩

/-- A concrete raw payload entry used by witnesses. -/
def adaRaw : RawContact :=
  ⟨some "people/ada", [⟨some "Ada Lovelace"⟩], [⟨some "ada@x.com"⟩],
   [], [], [], [], []⟩

/-- A second concrete raw entry with the same resolved name as adaRaw but
different other fields, used by witnesses. -/
def adaRaw2 : RawContact :=
  ⟨none, [⟨some "Ada Lovelace"⟩], [], [⟨some "555-1234"⟩], [], [], [], []⟩

/-! ## Theorems -/

theorem useridTruthy_some {s : String} (h : s ≠ "") :
    useridTruthy (some s) = true := by
  simp [useridTruthy, h]

theorem callUpstream_upstreamCalled (u : Option String) (env : FetchEnv) :
    (callUpstream u env).upstreamCalled = true := by
  unfold callUpstream
  cases env.upstream with
  | error e =>
    unfold fetchFallback
    by_cases h : useridTruthy u = true <;>
      simp [h] <;> split <;> rfl
  | ok p =>
    obtain ⟨status, conns⟩ := p
    by_cases h401 : status = 401
    · simp only [h401, if_pos rfl]
      unfold fetchFallback
      by_cases h : useridTruthy u = true <;> simp [h] <;> split <;> rfl
    · by_cases h200 : status = 200
      · simp [h401, h200]
      · simp only [if_neg h401, if_neg (by simpa using h200)]
        split
        · unfold fetchFallback
          by_cases h : useridTruthy u = true <;> simp [h] <;> split <;> rfl
        · unfold fetchFallback
          by_cases h : useridTruthy u = true <;> simp [h] <;> split <;> rfl

/-- C1: for every owner whose cache entry is present, non-expired, and
non-empty, fetch_contacts returns the cached sequence and never invokes
the upstream fetch. -/
theorem c1_cache_hit_serves_cache (uid : String) (huid : uid ≠ "")
    (env : FetchEnv) (entry : CacheEntry)
    (hstore : env.store1 = some entry) (hne : entry.contacts ≠ []) :
    (fetch_contacts (some uid) env).result = .ok entry.contacts ∧
    (fetch_contacts (some uid) env).upstreamCalled = false := by
  have hne2 : entry.contacts.isEmpty = false := by
    cases h : entry.contacts with
    | nil => exact absurd h hne
    | cons a l => rfl
  simp [fetch_contacts, useridTruthy_some huid, hstore, get_cached_contacts,
    hne2]

theorem c1_witness :
    ("u" : String) ≠ "" ∧
    (fetch_contacts (some "u")
        ⟨some ⟨[sampleContact], 1⟩, .error "boom", none⟩).result =
      .ok [sampleContact] :=
  ⟨by decide,
   (c1_cache_hit_serves_cache "u" (by decide)
      ⟨some ⟨[sampleContact], 1⟩, .error "boom", none⟩
      ⟨[sampleContact], 1⟩ rfl (by simp)).1⟩

/-- C2: for every owner, when the upstream fetch fails (transport error,
401 or any non-200 status) and the fallback cache re-read is non-empty,
fetch_contacts returns that cached sequence instead of raising. -/
theorem c2_stale_on_error (uid : String) (huid : uid ≠ "") (env : FetchEnv)
    (hmiss : get_cached_contacts env.store1 = [])
    (hfail : upstreamFails env.upstream = true)
    (hfb : get_cached_contacts env.store2 ≠ []) :
    (fetch_contacts (some uid) env).result =
      .ok (get_cached_contacts env.store2) := by
  have hm : (get_cached_contacts env.store1).isEmpty = true := by
    simp [hmiss]
  have hfb2 : (get_cached_contacts env.store2).isEmpty = false := by
    cases h : get_cached_contacts env.store2 with
    | nil => exact absurd h hfb
    | cons a l => rfl
  unfold fetch_contacts
  simp only [useridTruthy_some huid, if_pos rfl, hm, if_pos rfl]
  unfold callUpstream
  cases hu : env.upstream with
  | error e =>
    simp [fetchFallback, useridTruthy_some huid, hfb2]
  | ok p =>
    obtain ⟨status, conns⟩ := p
    have hs : status ≠ 200 := by
      intro h
      rw [hu, h] at hfail
      simp [upstreamFails] at hfail
    by_cases h401 : status = 401 <;>
      simp [h401, hs, fetchFallback, useridTruthy_some huid, hfb2]

theorem c2_witness :
    (fetch_contacts (some "u")
        ⟨none, .error "network down", some ⟨[sampleContact], 1⟩⟩).result =
      .ok [sampleContact] :=
  c2_stale_on_error "u" (by decide)
    ⟨none, .error "network down", some ⟨[sampleContact], 1⟩⟩
    rfl rfl (by simp [get_cached_contacts])

/-- C3: for every owner, when the upstream fetch fails and the fallback
cache re-read yields no data, fetch_contacts raises the wrapped upstream
failure and returns no data. -/
theorem c3_error_without_fallback (uid : String) (huid : uid ≠ "")
    (env : FetchEnv)
    (hmiss : get_cached_contacts env.store1 = [])
    (hfail : upstreamFails env.upstream = true)
    (hfb : get_cached_contacts env.store2 = []) :
    ∃ msg, (fetch_contacts (some uid) env).result =
      .error ("Failed to fetch contacts: " ++ msg) := by
  have hm : (get_cached_contacts env.store1).isEmpty = true := by
    simp [hmiss]
  have hfb2 : (get_cached_contacts env.store2).isEmpty = true := by
    simp [hfb]
  unfold fetch_contacts
  simp only [useridTruthy_some huid, if_pos rfl, hm, if_pos rfl]
  unfold callUpstream
  cases hu : env.upstream with
  | error e =>
    exact ⟨e, by simp [fetchFallback, useridTruthy_some huid, hfb2]⟩
  | ok p =>
    obtain ⟨status, conns⟩ := p
    have hs : status ≠ 200 := by
      intro h
      rw [hu, h] at hfail
      simp [upstreamFails] at hfail
    by_cases h401 : status = 401
    · exact ⟨"Access token expired or invalid",
        by simp [h401, fetchFallback, useridTruthy_some huid, hfb2]⟩
    · exact ⟨"Google API error: " ++ toString status,
        by simp [h401, hs, fetchFallback, useridTruthy_some huid, hfb2]⟩

theorem c3_witness :
    ∃ msg, (fetch_contacts (some "u")
        ⟨none, .error "network down", none⟩).result =
      .error ("Failed to fetch contacts: " ++ msg) :=
  c3_error_without_fallback "u" (by decide)
    ⟨none, .error "network down", none⟩ rfl rfl rfl

/-- C4 counterexample: an upstream success with zero records does populate
the cache with the empty entry, but a subsequent call whose cache read
returns that stored empty entry still invokes the upstream fetch: the code
guards the cache hit with Python truthiness, and an empty list is falsy. -/
theorem c4_counterexample :
    (fetch_contacts (some "u") ⟨none, .ok (200, []), none⟩).cacheWrite =
      some (cache_contacts []) ∧
    (fetch_contacts (some "u")
        ⟨some (cache_contacts []), .ok (200, []), none⟩).upstreamCalled =
      true := by
  constructor
  · rfl
  · rfl

/-- C4 amended: when the upstream fetch succeeds with zero records,
fetch_contacts returns the empty sequence as a valid success and writes
the empty result to the cache; however a subsequent call that reads back
the cached empty entry is NOT served from the cache: it invokes the
upstream fetch again, because the cache-hit test uses list truthiness. -/
theorem c4_empty_success_caches_but_recalls (uid : String) (huid : uid ≠ "")
    (env : FetchEnv) (conns : List RawContact)
    (hmiss : get_cached_contacts env.store1 = [])
    (hok : env.upstream = .ok (200, conns))
    (hempty : _transform_contacts conns = []) :
    (fetch_contacts (some uid) env).result = .ok [] ∧
    (fetch_contacts (some uid) env).cacheWrite = some (cache_contacts []) ∧
    ∀ env2 : FetchEnv, env2.store1 = some (cache_contacts []) →
      (fetch_contacts (some uid) env2).upstreamCalled = true := by
  have hm : (get_cached_contacts env.store1).isEmpty = true := by
    simp [hmiss]
  refine ⟨?_, ?_, ?_⟩
  · unfold fetch_contacts
    simp only [useridTruthy_some huid, if_pos rfl, hm, if_pos rfl]
    unfold callUpstream
    rw [hok]
    simp [hempty]
  · unfold fetch_contacts
    simp only [useridTruthy_some huid, if_pos rfl, hm, if_pos rfl]
    unfold callUpstream
    rw [hok]
    simp [hempty, useridTruthy_some huid]
  · intro env2 hst
    unfold fetch_contacts
    simp only [useridTruthy_some huid, if_pos rfl, hst]
    have : (get_cached_contacts (some (cache_contacts []))).isEmpty = true :=
      rfl
    simp only [this, if_pos rfl]
    exact callUpstream_upstreamCalled _ _

theorem c4_witness :
    (fetch_contacts (some "u") ⟨none, .ok (200, []), none⟩).result =
      .ok [] ∧
    (fetch_contacts (some "u")
        ⟨some (cache_contacts []), .error "x", none⟩).upstreamCalled =
      true := by
  have h := c4_empty_success_caches_but_recalls "u" (by decide)
    ⟨none, .ok (200, []), none⟩ [] rfl rfl rfl
  exact ⟨h.1, h.2.2 ⟨some (cache_contacts []), .error "x", none⟩ rfl⟩

theorem transformGo_eq_spec (cs : List RawContact) :
    ∀ acc, transformGo cs acc = acc ++ transformContactsSpec acc.length cs := by
  induction cs with
  | nil => intro acc; simp [transformGo, transformContactsSpec]
  | cons c rest ih =>
    intro acc
    unfold transformGo transformContactsSpec
    by_cases h : keeps c = true
    · simp only [h, if_true]
      rw [ih (acc ++ [mkContact c acc.length])]
      simp [List.length_append]
    · have h' : keeps c = false := by simpa using h
      simp [h', ih acc]

/-- C5: the normalizer keeps a raw entry exactly when the meaningful-data
condition holds: it agrees with the spec-following rendition that filters
on keeps, keeps is exactly the disjunction of the three conditions, and
the fully-empty entry normalizes to zero records. -/
theorem c5_meaningful_filter :
    (∀ cs : List RawContact,
      _transform_contacts cs = transformContactsSpec 0 cs) ∧
    (∀ c : RawContact, keeps c = true ↔
      (resolveName c ≠ "Unknown Contact" ∨ resolveEmail c ≠ "" ∨
        resolvePhone c ≠ "")) ∧
    _transform_contacts [⟨none, [], [], [], [], [], [], []⟩] = [] := by
  refine ⟨?_, ?_, ?_⟩
  · intro cs
    simpa [_transform_contacts] using transformGo_eq_spec cs []
  · intro c
    simp [keeps, or_assoc]
  · rfl

theorem contactFallbackId_ne (n : Nat) : ("contact-" ++ toString n) ≠ "" := by
  intro h
  have hlen := congrArg String.length h
  rw [String.length_append] at hlen
  have h8 : ("contact-" : String).length = 8 := rfl
  have h0 : ("" : String).length = 0 := rfl
  omega

theorem mkContact_id_ne (c : RawContact) (k : Nat)
    (h : c.resourceName ≠ some "") : (mkContact c k).id ≠ "" := by
  unfold mkContact
  cases hr : c.resourceName with
  | none => simpa [hr] using contactFallbackId_ne k
  | some s =>
    have hs : s ≠ "" := by
      intro he
      exact h (by rw [hr, he])
    simpa [hr] using hs

theorem transformGo_id_ne (cs : List RawContact) :
    ∀ acc, (∀ c ∈ cs, c.resourceName ≠ some "") →
    (∀ r ∈ acc, r.id ≠ "") →
    ∀ r ∈ transformGo cs acc, r.id ≠ "" := by
  induction cs with
  | nil =>
    intro acc _ hacc r hr
    exact hacc r hr
  | cons c rest ih =>
    intro acc hcs hacc r hr
    unfold transformGo at hr
    by_cases hk : keeps c = true
    · simp only [hk, if_true] at hr
      refine ih (acc ++ [mkContact c acc.length])
        (fun c' hc' => hcs c' (List.mem_cons_of_mem _ hc')) ?_ r hr
      intro r' hr'
      rcases List.mem_append.mp hr' with h1 | h2
      · exact hacc r' h1
      · rw [List.mem_singleton] at h2
        subst h2
        exact mkContact_id_ne c _ (hcs c (List.mem_cons_self _ _))
    · have hk' : keeps c = false := by simpa using hk
      simp only [hk', if_false] at hr
      exact ih acc (fun c' hc' => hcs c' (List.mem_cons_of_mem _ hc'))
        hacc r hr

/-- C6 counterexample: an entry whose resourceName is PRESENT but EMPTY
produces a record whose identifier is the empty string: dict.get only
falls back to "contact-N" on a missing key, not on an empty value. -/
theorem c6_counterexample :
    (_transform_contacts
        [⟨some "", [⟨some "Ada Lovelace"⟩], [], [], [], [], [], []⟩]).map
      (fun r => r.id) = [""] := by
  rfl

/-- C6 amended: every record produced by the normalizer has a non-empty
identifier provided every raw entry has its resourceName either absent
(the "contact-N" fallback applies) or non-empty; an entry carrying an
explicitly empty resourceName yields an empty identifier. -/
theorem c6_nonempty_id (cs : List RawContact)
    (h : ∀ c ∈ cs, c.resourceName ≠ some "") :
    ∀ r ∈ _transform_contacts cs, r.id ≠ "" := by
  unfold _transform_contacts
  exact transformGo_id_ne cs [] h (by intro r hr; cases hr)

theorem c6_witness : (mkContact adaRaw 0).id ≠ "" :=
  c6_nonempty_id [adaRaw]
    (by
      intro c hc
      rw [List.mem_singleton] at hc
      subst hc
      simp [adaRaw])
    (mkContact adaRaw 0)
    (by
      rw [show _transform_contacts [adaRaw] = [mkContact adaRaw 0] from rfl]
      exact List.mem_singleton_self _)

/-- C7: normalizing the same payload twice yields identical records, and
the generated-avatar reference is a function of the resolved name alone:
two entries with the same resolved name and no photo URL get the same
avatar. -/
theorem c7_deterministic :
    (∀ cs : List RawContact,
      _transform_contacts cs = _transform_contacts cs) ∧
    (∀ c1 c2 : RawContact, resolveName c1 = resolveName c2 →
      resolvePhotoUrl c1 = "" → resolvePhotoUrl c2 = "" →
      resolveAvatar c1 = resolveAvatar c2) := by
  refine ⟨fun _ => rfl, ?_⟩
  intro c1 c2 hn h1 h2
  simp [resolveAvatar, h1, h2, hn]

theorem c7_witness : resolveAvatar adaRaw = resolveAvatar adaRaw2 :=
  c7_deterministic.2 adaRaw adaRaw2 rfl rfl rfl

theorem matchToDict_hasKey_score (m : PineconeMatch) :
    hasKey (matchToDict m) "score" = false := rfl

/-- C8 counterexample: even when the backing store attaches a similarity
score to a match, the result dictionary built by query_vectors holds only
the keys id, values and metadata — no result of query_vectors carries a
score. -/
theorem c8_counterexample :
    query_vectors [⟨"a", [1], some [("k", "x")], some 1⟩] =
      [[("id", .str "a"), ("values", .vec [1]),
        ("metadata", .obj [("k", "x")])]] ∧
    hasKey [("id", PineVal.str "a"), ("values", .vec [1]),
        ("metadata", .obj [("k", "x")])] "score" = false := by
  exact ⟨rfl, rfl⟩

/-- C8 amended: query_vectors never emits a score key in its results; the
similarity-search endpoint layer (api_server.py lines 64-68) then attaches
the defined default score 0.0 to every result, so every surfaced
SimilarityResult carries score 0.0 rather than an error. -/
theorem c8_score_defaulted_downstream :
    (∀ ms : List PineconeMatch, ∀ r ∈ query_vectors ms,
      hasKey r "score" = false) ∧
    (∀ ms : List PineconeMatch, ∀ s ∈ similarity_search_results ms,
      s.score = 0) := by
  constructor
  · intro ms r hr
    obtain ⟨m, _, hmr⟩ := List.mem_map.mp hr
    subst hmr
    exact matchToDict_hasKey_score m
  · intro ms s hs
    obtain ⟨r, hr, hsr⟩ := List.mem_map.mp hs
    obtain ⟨m, _, hmr⟩ := List.mem_map.mp hr
    subst hmr
    subst hsr
    rfl

theorem c8_witness :
    hasKey (matchToDict ⟨"a", [1], some [("k", "x")], some 1⟩) "score" =
      false ∧
    (toSimilarityResult (addDefaultScore
        (matchToDict ⟨"a", [1], some [("k", "x")], some 1⟩))).score = 0 :=
  ⟨c8_score_defaulted_downstream.1 [⟨"a", [1], some [("k", "x")], some 1⟩]
      (matchToDict ⟨"a", [1], some [("k", "x")], some 1⟩)
      (List.mem_singleton_self _),
   c8_score_defaulted_downstream.2 [⟨"a", [1], some [("k", "x")], some 1⟩]
      (toSimilarityResult (addDefaultScore
        (matchToDict ⟨"a", [1], some [("k", "x")], some 1⟩)))
      (List.mem_singleton_self _)⟩

/-- C9: constructing the Vectorizer with the openai package importable
fails with the environment configuration error when OPENAI_API_KEY is
unset, and succeeds (holding the model name and key, with no embedding
call involved) when a non-empty key is present. -/
theorem c9_credential_gate :
    (∀ m : String, vectorizerInit true none m =
      .error (.envErr "OPENAI_API_KEY not set in environment.")) ∧
    (∀ (m k : String), k ≠ "" →
      vectorizerInit true (some k) m = .ok ⟨m, k⟩) := by
  constructor
  · intro m
    rfl
  · intro m k hk
    simp [vectorizerInit, hk]

theorem c9_witness :
    vectorizerInit true (some "sk-test") "text-embedding-ada-002" =
      .ok ⟨"text-embedding-ada-002", "sk-test"⟩ :=
  c9_credential_gate.2 "text-embedding-ada-002" "sk-test" (by decide)

/-- C10: insert_vectors performs no length check: the items handed to the
upsert call are the zip of ids, vectors and metadata, so exactly
min(len(ids), len(vectors), len(metadata)) items are upserted and surplus
elements of longer lists are silently dropped. -/
theorem c10_zip_truncation :
    ∀ (vectors : List (List ℚ)) (ids : List String)
      (metadata : List (List (String × String))),
    (insert_vectors vectors ids metadata).length =
      min ids.length (min vectors.length metadata.length) := by
  intro v i m
  simp [insert_vectors, List.length_zip]

end ContactAgg
